import Mathlib

/-!
Shallow embedding of the `backendProject` Express/Mongoose user service
(user model, token generation, login/logout/refresh, password change,
registration, cloudinary upload, and the JWT auth middleware), together
with theorems settling the claims about it.

Conventions used throughout:
* a JavaScript value that may be `undefined` is an `Option`; `none` is
  `undefined`;
* a thrown exception is `Except.error`; `JsError.api` is a thrown
  `ApiError(statusCode, message)`, the other constructors are plain
  runtime errors that the Express default error handler turns into a 500
  response;
* machine-independent data only: ids are `Nat`, strings are `String`.
-/

namespace Backend

/-- Decidable equality for `Except`, used to evaluate the embedded handlers
on concrete inputs. -/
instance {ε α : Type} [DecidableEq ε] [DecidableEq α] : DecidableEq (Except ε α) :=
  fun x y =>
    match x, y with
    | .ok a, .ok b =>
      if h : a = b then .isTrue (by rw [h])
      else .isFalse (fun hc => h (Except.ok.inj hc))
    | .error a, .error b =>
      if h : a = b then .isTrue (by rw [h])
      else .isFalse (fun hc => h (Except.error.inj hc))
    | .ok _, .error _ => .isFalse (fun hc => Except.noConfusion hc)
    | .error _, .ok _ => .isFalse (fun hc => Except.noConfusion hc)

/-- JWT payloads as produced by `jwt.sign` in the user model. `iat` models the
issued-at claim that the jwt library adds to every signature, so two tokens
signed for the same subject at different times are distinct values. -/
inductive JwtPayload where
  | access (id : Nat) (email : String) (username : String) (fullName : String) (iat : Nat)
  | refresh (id : Nat) (iat : Nat)
deriving DecidableEq, Repr

/-- The `_id` claim read by `decodedToken?._id` in the controllers. -/
def JwtPayload.subjectId : JwtPayload → Nat
  | .access i _ _ _ _ => i
  | .refresh i _ => i

/-- A JS string holding a candidate token: either a well-formed JWT obtained by
signing `payload` with `secret`, or any other string (`raw`), which always
fails verification. -/
inductive Tok where
  | signed (payload : JwtPayload) (secret : String)
  | raw (s : String)
deriving DecidableEq, Repr

/-- `jwt.sign(payload, secret, options)`. Expiry options are not modelled
(no claim in scope mentions token expiry). -/
def jwtSign (payload : JwtPayload) (secret : String) : Tok :=
  .signed payload secret

/-- `jwt.verify(token, secret)`: returns the decoded payload when the
signature matches `secret`, otherwise throws (modelled as `Except.error`
carrying the library error message). -/
def jwtVerify (t : Tok) (secret : String) : Except String JwtPayload :=
  match t with
  | .signed p s => if s = secret then .ok p else .error "invalid signature"
  | .raw _ => .error "jwt malformed"

/-- The relevant part of `process.env`: the two token secrets plus a clock
supplying the `iat` claim of freshly created signatures. -/
structure Env where
  accessTokenSecret : String
  refreshTokenSecret : String
  now : Nat
deriving Repr

/-- A persisted user document, fields as in `user.models.js` (the
`watchHistory` array and timestamps are irrelevant to the claims and
omitted). `refreshToken` is the nullable single current refresh token. -/
structure UserRecord where
  _id : Nat
  username : String
  email : String
  fullName : String
  avatar : String
  coverImage : String
  password : String
  refreshToken : Option Tok
deriving DecidableEq, Repr

/-- The users collection of the MongoDB store. -/
structure DB where
  users : List UserRecord
deriving DecidableEq, Repr

/-- `User.findById(id)`. -/
def findById (db : DB) (id : Nat) : Option UserRecord :=
  db.users.find? (fun u => u._id == id)

/-- `doc.save()` for an already-persisted document: replaces the stored
record having the same `_id`. -/
def saveUser (db : DB) (u : UserRecord) : DB :=
  ⟨db.users.map (fun v => if v._id == u._id then u else v)⟩

/-- Model of `bcrypt.hash(p, 10)`. Real bcrypt emits
`$2b$10$<salt and digest>`; the model keeps the algorithm/cost prefix, which
already gives the property the spec relies on: the output never equals the
input plaintext. (The per-call random salt is collapsed to a fixed salt;
no claim in scope distinguishes salts.) -/
def bcryptHash (plaintext : String) : String :=
  "$2b$10$" ++ plaintext

/-- Model of `bcrypt.compare(p, stored)`: true exactly when `stored` is the
hash of `p`. -/
def bcryptCompare (plaintext stored : String) : Bool :=
  stored = bcryptHash plaintext

/-- `userSchema.pre("save", ...)` from the user model: if the password path is
not modified the hook is a no-op, otherwise it replaces the password with its
bcrypt hash before the document is written. -/
def preSaveHook (passwordModified : Bool) (doc : UserRecord) : UserRecord :=
  if ¬ passwordModified then doc
  else { doc with password := bcryptHash doc.password }

/-- `userSchema.methods.generateAccessToken`. The body calls `jwt.sign(...)`
but never returns the result, so — like any JS function that falls off the end
of its body — the method evaluates to `undefined` (`none`). The signature it
computes and discards is kept in the `let` binding. -/
def generateAccessToken (env : Env) (u : UserRecord) : Option Tok :=
  let _signature :=
    jwtSign (.access u._id u.email u.username u.fullName env.now) env.accessTokenSecret
  none

/-- `userSchema.methods.generateRefershToken` (sic). Same missing `return` as
`generateAccessToken`: the computed signature is discarded and the method
evaluates to `undefined`. -/
def generateRefershToken (env : Env) (u : UserRecord) : Option Tok :=
  let _signature :=
    jwtSign (.refresh u._id env.now) env.refreshTokenSecret
  none

/-- Errors escaping a request handler. `api` is a thrown
`ApiError(statusCode, message)`; `referenceError`, `typeError` and
`mongooseValidation` are non-`ApiError` exceptions, which Express's default
error handler reports as a 500 response. -/
inductive JsError where
  | api (statusCode : Nat) (message : String)
  | referenceError (message : String)
  | typeError (message : String)
  | mongooseValidation (message : String)
deriving DecidableEq, Repr

/-- `generateAccessAndRefreshTokens(userId)` from the user controller.
The document save with `user.refreshToken` assigned `undefined` unsets the
stored field (mongoose document-save semantics), and the returned object
carries the two `undefined` method results. A lookup miss makes the method
call inside the `try` throw, which the `catch` converts to `ApiError(500)`. -/
def generateAccessAndRefreshTokens (env : Env) (db : DB) (userId : Nat) :
    Except JsError (DB × Option Tok × Option Tok) :=
  match findById db userId with
  | none => .error (.api 500 "error while generating tokens")
  | some user =>
    let refreshToken := generateRefershToken env user
    let accessToken := generateAccessToken env user
    let user2 := { user with refreshToken := refreshToken }
    let db2 := saveUser db user2
    .ok (db2, accessToken, refreshToken)

/-- JS truthiness of a possibly-undefined string: `undefined` and the empty
string are falsy. -/
def jsFalsyStr : Option String → Bool
  | none => true
  | some s => s == ""

/-- JS truthiness of a possibly-undefined token-bearing string. A well-formed
signed JWT is a nonempty string, hence truthy; a raw string is falsy exactly
when empty. -/
def jsFalsyTok : Option Tok → Bool
  | none => true
  | some (.raw s) => s == ""
  | some (.signed _ _) => false

/-- The JS expression `a || b` on possibly-undefined token strings. -/
def jsOrTok (a b : Option Tok) : Option Tok :=
  if jsFalsyTok a then b else a

/-- The JS expression `a || b` where `a` is a possibly-undefined string and
`b` a string (used for `coverImage?.url || ""`). -/
def jsOrStr (a : Option String) (b : String) : String :=
  match a with
  | some s => if s == "" then b else s
  | none => b

/-- A user record as delivered with `.select("-password -refreshToken")`:
the password and refresh-token fields are projected out. -/
structure SanitizedUser where
  _id : Nat
  username : String
  email : String
  fullName : String
  avatar : String
  coverImage : String
deriving DecidableEq, Repr

/-- The `-password -refreshToken` projection. -/
def sanitize (u : UserRecord) : SanitizedUser :=
  ⟨u._id, u.username, u.email, u.fullName, u.avatar, u.coverImage⟩

/-- One `$or` clause such as `{ username }` in a `findOne` filter. Mongoose
strips a key whose value is `undefined` when casting a query, leaving the
empty clause, and an empty clause matches every document. -/
def orClause (wanted : Option String) (field : UserRecord → String) (u : UserRecord) : Bool :=
  match wanted with
  | none => true
  | some v => field u == v

/-- `User.findOne({$or : [ { username } , { email } ]})` as used by
`registerUser`. -/
def findOneByUsernameOrEmail (db : DB) (username email : Option String) : Option UserRecord :=
  db.users.find? (fun u => orClause username (fun v => v.username) u
                        || orClause email (fun v => v.email) u)

/-- `User.findOne({$or : [{email},{username}]})` as used by `loginUser`. -/
def findOneByEmailOrUsername (db : DB) (email username : Option String) : Option UserRecord :=
  db.users.find? (fun u => orClause email (fun v => v.email) u
                        || orClause username (fun v => v.username) u)

/-- The request body of `loginUser`. -/
structure LoginBody where
  username : Option String
  email : Option String
  password : Option String
deriving Repr

/-- What `loginUser` sends back on success: status, the re-queried sanitized
user, and the `accessToken` / `refreshToken` values placed both in cookies and
in the JSON body. -/
structure LoginResponse where
  status : Nat
  user : Option SanitizedUser
  accessToken : Option Tok
  refreshToken : Option Tok
deriving DecidableEq, Repr

/-- `loginUser` from the user controller. -/
def loginUser (env : Env) (db : DB) (body : LoginBody) :
    Except JsError (DB × LoginResponse) :=
  if jsFalsyStr body.username && jsFalsyStr body.email then
    .error (.api 400 "username or email is required")
  else
    match findOneByEmailOrUsername db body.email body.username with
    | none => .error (.api 404 "user does not exist")
    | some user =>
      match body.password with
      | none => .error (.typeError "data and hash arguments required")
      | some pw =>
        if ¬ bcryptCompare pw user.password then
          .error (.api 401 "Password incorrect")
        else
          match generateAccessAndRefreshTokens env db user._id with
          | .error e => .error e
          | .ok (db2, accessToken, refreshToken) =>
            let loggedInUser := (findById db2 user._id).map sanitize
            .ok (db2, ⟨200, loggedInUser, accessToken, refreshToken⟩)

/-- Applying one cast `$set` entry for the `refreshToken` path to a record.
In an update document, mongoose always strips a key whose value is the JS
`undefined` before the update is sent, so the entry is either absent (`none`,
the `$set` is empty and the record is unchanged) or sets the field. -/
def applySetRefreshToken (entry : Option Tok) (u : UserRecord) : UserRecord :=
  match entry with
  | none => u
  | some t => { u with refreshToken := some t }

/-- `logoutUser`. The update document is `$set` of the JS value `undefined`
for `refreshToken`; after mongoose casting that entry is dropped (`none`), so
the stored document is not modified. The handler then clears both cookies and
responds 200. -/
def logoutUser (db : DB) (userId : Nat) : DB × Nat :=
  let db2 : DB :=
    ⟨db.users.map (fun u => if u._id == userId then applySetRefreshToken none u else u)⟩
  (db2, 200)

/-- What `refershAccessToken` sends back on success: status plus the
`accessToken` / `refreshToken` values placed in cookies and in the JSON
body. -/
structure RefreshResponse where
  status : Nat
  accessToken : Option Tok
  refreshToken : Option Tok
deriving DecidableEq, Repr

/-- `refershAccessToken` (sic) from the user controller.

Inside the `try` block:
* a jwt verification failure throws and is caught below;
* a lookup miss throws `ApiError(401, "invalid refresh token")`, also caught
  below;
* the mismatch branch evaluates `new APiError(401, ...)` — `APiError` is an
  undefined identifier (typo for `ApiError`), so a `ReferenceError` is thrown;
* on match, the destructuring `const {accessToken, newRefreshToken} = ...`
  reads the property `newRefreshToken` of an object whose keys are
  `accessToken` and `refreshToken`, so `newRefreshToken` is `undefined`.

The `catch` block itself evaluates `new APiError(401, ...)`, so every caught
error is re-raised as a `ReferenceError`, which Express's default handler
turns into a 500 response. -/
def refershAccessToken (env : Env) (db : DB)
    (cookieRefreshToken bodyRefreshToken : Option Tok) :
    Except JsError (DB × RefreshResponse) :=
  let incomingRefreshToken := jsOrTok cookieRefreshToken bodyRefreshToken
  if jsFalsyTok incomingRefreshToken then
    .error (.api 401 "unauthorized request")
  else
    match incomingRefreshToken with
    | none => .error (.api 401 "unauthorized request")
    | some tok =>
      let tryBlock : Except JsError (DB × RefreshResponse) :=
        match jwtVerify tok env.refreshTokenSecret with
        | .error msg => .error (.api 401 msg)
        | .ok decodedToken =>
          match findById db decodedToken.subjectId with
          | none => .error (.api 401 "invalid refresh token")
          | some user =>
            if user.refreshToken ≠ some tok then
              .error (.referenceError "APiError is not defined")
            else
              match generateAccessAndRefreshTokens env db user._id with
              | .error e => .error e
              | .ok (db2, accessToken, rotated) =>
                let newRefreshToken : Option Tok := none
                let _ := rotated
                .ok (db2, ⟨200, accessToken, newRefreshToken⟩)
      match tryBlock with
      | .ok r => .ok r
      | .error _ => .error (.referenceError "APiError is not defined")

/-- The parts of an incoming request that `verifyJWT` inspects.
`headerToken` models `req.header("Authorization")?.replace("Bearer ", "")`:
`none` when the header is absent; a well-formed `Bearer` header yields the
credential it carries; any other header value survives the `replace` as a raw
string (`Tok.raw`), which fails verification. -/
structure AuthRequest where
  cookieAccessToken : Option Tok
  headerToken : Option Tok
deriving Repr

/-- `error?.message || "Invalid Access Token"` in the `catch` block of
`verifyJWT`. -/
def errMessage : JsError → String
  | .api _ m | .referenceError m | .typeError m | .mongooseValidation m =>
    if m == "" then "Invalid Access Token" else m

/-- The `try` block of `verifyJWT`, applied to the already-extracted bearer
credential: 401 if the credential is falsy (absent or empty); throw the jwt
verification error if the signature does not check; 401 if the user resolved
from the token subject no longer exists; otherwise the user with
`-password -refreshToken` projected out. -/
def verifyJWTtry (env : Env) (db : DB) (token : Option Tok) :
    Except JsError SanitizedUser :=
  if jsFalsyTok token then
    .error (.api 401 "Unathorized request")
  else
    match token with
    | none => .error (.api 401 "Unathorized request")
    | some t =>
      match jwtVerify t env.accessTokenSecret with
      | .error msg => .error (.api 401 msg)
      | .ok decodeToken =>
        match findById db decodeToken.subjectId with
        | none => .error (.api 401 "Invalid Access Token")
        | some user => .ok (sanitize user)

/-- `verifyJWT` from the auth middleware: extract the bearer credential
preferring the `accessToken` cookie, falling back to the `Authorization`
header (the JS `||`), then run the `try` block (`verifyJWTtry`). Every error
thrown inside the `try` is re-wrapped by the `catch` as
`ApiError(401, error?.message || "Invalid Access Token")`. -/
def verifyJWT (env : Env) (db : DB) (req : AuthRequest) :
    Except JsError SanitizedUser :=
  let token := jsOrTok req.cookieAccessToken req.headerToken
  match verifyJWTtry env db token with
  | .ok u => .ok u
  | .error e => .error (.api 401 (errMessage e))

/-- Property lookup on a JS request body object (absent key gives
`undefined`). -/
def jsGet (body : List (String × String)) (key : String) : Option String :=
  (body.find? (fun kv => kv.1 == key)).map (fun kv => kv.2)

/-- `changeCurrentPassword`. The destructuring reads the body keys
`oldPassword` and `newPassowrd` (sic — the misspelling is in the source).
It then assigns `user.password` and saves, which runs the pre-save hook and
re-hashes. A `bcrypt` call whose data argument is `undefined` rejects with a
plain error (modelled `typeError`), surfaced by Express as a 500. -/
def changeCurrentPassword (db : DB) (userId : Nat) (body : List (String × String)) :
    Except JsError (DB × Nat) :=
  let oldPassword := jsGet body "oldPassword"
  let newPassowrd := jsGet body "newPassowrd"
  match findById db userId with
  | none => .error (.typeError "Cannot read properties of null")
  | some user =>
    match oldPassword with
    | none => .error (.typeError "data and hash arguments required")
    | some op =>
      if ¬ bcryptCompare op user.password then
        .error (.api 400 "invalid password")
      else
        match newPassowrd with
        | none => .error (.typeError "data and salt arguments required")
        | some np =>
          let user2 := preSaveHook true { user with password := np }
          .ok (saveUser db user2, 200)

/-- JS `String.prototype.trim()`: strip leading and trailing whitespace
(ASCII whitespace suffices for the claims in scope). Implemented on the
character-list model of `String` so that it reduces during kernel
evaluation. -/
def jsTrim (s : String) : String :=
  ⟨((s.data.dropWhile Char.isWhitespace).reverse.dropWhile Char.isWhitespace).reverse⟩

/-- JS `String.prototype.toLowerCase()` (also the mongoose `lowercase: true`
setter), on the character-list model of `String`. -/
def jsToLower (s : String) : String :=
  ⟨s.data.map Char.toLower⟩

/-- A cloudinary upload response (only the `url` field is consumed). -/
structure UploadResponse where
  url : String
deriving DecidableEq, Repr

/-- The behaviour of `cloudinary.uploader.upload` for each local path:
`some r` when the upload succeeds with response `r`, `none` when the uploader
throws. -/
structure CloudEnv where
  uploadResult : String → Option UploadResponse

/-- `uploadOnCloudinary` from `utils/cloudinary.js`: returns `null` when the
path argument is falsy (absent or empty); on an upload failure the `catch`
removes the temporary file and returns `null`; otherwise the upload response
is returned. -/
def uploadOnCloudinary (cenv : CloudEnv) (localFilePath : Option String) :
    Option UploadResponse :=
  if jsFalsyStr localFilePath then none
  else
    match localFilePath with
    | none => none
    | some p =>
      match cenv.uploadResult p with
      | some response => some response
      | none => none

/-- One file entry produced by multer (only `path` is consumed). -/
structure UploadedFile where
  path : String
deriving DecidableEq, Repr

/-- The `req.files` object produced by `upload.fields(...)`: each field key is
present (`some list`) only when at least that key was populated, absent
(`none` = `undefined`) otherwise. -/
structure FilesObj where
  avatar : Option (List UploadedFile)
  coverImage : Option (List UploadedFile)
deriving Repr

/-- The text fields of the registration body; `none` is an absent field. -/
structure RegisterBody where
  fullName : Option String
  email : Option String
  username : Option String
  password : Option String
deriving Repr

/-- A registration request: body plus the multer `files` object (which is
itself `undefined` when no multipart parsing happened). -/
structure RegisterReq where
  body : RegisterBody
  files : Option FilesObj
deriving Repr

/-- The avatar path extraction `req.files?.avatar[0]?.path`. The optional
chain guards only `req.files` itself: when `req.files` is an object without
an `avatar` key, the expression indexes `undefined[0]` and throws a
`TypeError`. With the key present, `[0]?.path` is `undefined` for an empty
list and the path of the first file otherwise. -/
def avatarLocalPathOf (files : Option FilesObj) : Except JsError (Option String) :=
  match files with
  | none => .ok none
  | some fo =>
    match fo.avatar with
    | none => .error (.typeError "Cannot read properties of undefined (reading 0)")
    | some lst => .ok (lst.head?.map (fun f => f.path))

/-- The guarded cover-image extraction:
`req.files && Array.isArray(req.files.coverImage) && req.files.coverImage.length > 0`. -/
def coverImageLocalPathOf (files : Option FilesObj) : Option String :=
  match files with
  | some fo =>
    match fo.coverImage with
    | some (f :: _) => some f.path
    | _ => none
  | none => none

/-- The blank-field validation of `registerUser`:
`[fullName,email,username,password].some((field) => field?.trim() === "")`.
`undefined?.trim()` is `undefined`, which is not strictly equal to `""`, so an
absent field does not trip this check. -/
def someFieldBlank (b : RegisterBody) : Bool :=
  [b.fullName, b.email, b.username, b.password].any (fun f =>
    match f with
    | some s => jsTrim s == ""
    | none => false)

/-- `registerUser` from the user controller. Steps, in source order: the
blank-field check (400); the `$or` duplicate lookup (409); the avatar path
extraction (which can throw a `TypeError`, see `avatarLocalPathOf`); the
guarded cover-image extraction; the falsy-avatar-path check (400); the two
cloudinary uploads; the null-avatar-response check (400); `User.create`
(`username.toLowerCase()` throws a `TypeError` when `username` is
`undefined`; mongoose rejects a create with a missing required field or an
empty required `avatar` url; the schema applies `lowercase`/`trim` setters
and the pre-save hook hashes the password); the re-query with
`-password -refreshToken`; 201 with the sanitized record. The re-query-miss
branch evaluates `new APiError(500, ...)`, an undefined identifier. -/
def registerUser (cenv : CloudEnv) (db : DB) (req : RegisterReq) (nextId : Nat) :
    Except JsError (DB × Nat × SanitizedUser) :=
  if someFieldBlank req.body then
    .error (.api 400 "All fields are required")
  else
    match findOneByUsernameOrEmail db req.body.username req.body.email with
    | some _ => .error (.api 409 "User with email or username already exist")
    | none =>
      match avatarLocalPathOf req.files with
      | .error e => .error e
      | .ok avatarLocalPath =>
        let coverImageLocalPath := coverImageLocalPathOf req.files
        if jsFalsyStr avatarLocalPath then
          .error (.api 400 "avatar file is required")
        else
          let avatar := uploadOnCloudinary cenv avatarLocalPath
          let coverImage := uploadOnCloudinary cenv coverImageLocalPath
          match avatar with
          | none => .error (.api 400 "avatar file is required")
          | some avatarResp =>
            match req.body.username with
            | none => .error (.typeError "Cannot read properties of undefined (reading toLowerCase)")
            | some un =>
              match req.body.fullName, req.body.email, req.body.password with
              | some fn, some em, some pw =>
                if avatarResp.url == "" then
                  .error (.mongooseValidation "User validation failed")
                else
                  let newUser : UserRecord :=
                    { _id := nextId
                      username := jsTrim (jsToLower un)
                      email := jsToLower em
                      fullName := jsTrim fn
                      avatar := avatarResp.url
                      coverImage := jsOrStr (coverImage.map (fun r => r.url)) ""
                      password := pw
                      refreshToken := none }
                  let created := preSaveHook true newUser
                  let db2 : DB := ⟨db.users ++ [created]⟩
                  match findById db2 nextId with
                  | none => .error (.referenceError "APiError is not defined")
                  | some createdUser => .ok (db2, 201, sanitize createdUser)
              | _, _, _ => .error (.mongooseValidation "User validation failed")

/-! Concrete fixtures used by the evaluation theorems. -/

/-- A concrete environment with distinct access and refresh secrets. -/
def envA : Env := ⟨"access-secret", "refresh-secret", 100⟩

/-- A persisted user whose plaintext password at registration was `p1` and who
currently holds no refresh token. -/
def alice : UserRecord :=
  ⟨1, "alice", "alice@x.com", "Alice A", "http://img/avatar.png", "",
   bcryptHash "p1", none⟩

/-- A refresh token for subject 1 issued (in an earlier session) at time 5. -/
def rt5 : Tok := jwtSign (.refresh 1 5) "refresh-secret"

/-- Another validly signed refresh token for subject 1, issued at time 9, so
distinct from `rt5`. -/
def rt9 : Tok := jwtSign (.refresh 1 9) "refresh-secret"

/-- `alice` with `rt5` persisted as her current refresh token. -/
def aliceSession : UserRecord := { alice with refreshToken := some rt5 }

/-- A cloudinary environment in which every upload succeeds with a fixed
url. -/
def cenvUp : CloudEnv := ⟨fun _ => some ⟨"http://cdn/x.png"⟩⟩

/-- A registration request missing the `fullName` field, all other fields
well-formed and an avatar file part present. -/
def reqNoFullName : RegisterReq :=
  ⟨⟨none, some "bob@x.com", some "bob", some "pw1"⟩,
   some ⟨some [⟨"tmp/a.png"⟩], none⟩⟩

/-- A registration request with all text fields well-formed whose `files`
object carries only a `coverImage` part and no `avatar` key. -/
def reqNoAvatar : RegisterReq :=
  ⟨⟨some "Bob B", some "bob@x.com", some "bob", some "pw1"⟩,
   some ⟨none, some [⟨"tmp/c.png"⟩]⟩⟩

/-- C1: the claim fails on the code. Both token generator methods call
`jwt.sign` but never return it, so each evaluates to `undefined`, and a
successful login consequently responds 200 with `undefined` in place of both
the access and the refresh token (and with the stored refresh-token field
unset by the save). -/
theorem generateTokens_undefined :
    generateAccessToken envA alice = none ∧
    generateRefershToken envA alice = none ∧
    loginUser envA ⟨[alice]⟩ ⟨some "alice", some "alice@x.com", some "p1"⟩ =
      .ok (⟨[alice]⟩, ⟨200, some (sanitize alice), none, none⟩) := by
  decide

/-- C2: the claim fails on the code. `logoutUser` leaves the persisted
refresh token in place (mongoose drops the `undefined`-valued `$set` entry),
so replaying the pre-logout refresh token afterwards still passes the
persisted-value comparison and the refresh rotation responds 200 instead of
failing with a 401. -/
theorem logout_keeps_refreshToken_replay_succeeds :
    (logoutUser ⟨[aliceSession]⟩ 1).1 = ⟨[aliceSession]⟩ ∧
    refershAccessToken envA (logoutUser ⟨[aliceSession]⟩ 1).1 (some rt5) none =
      .ok (⟨[alice]⟩, ⟨200, none, none⟩) := by
  decide

/-- C3: the claim fails on the code. Presenting a validly signed refresh
token for an existing user that differs from the persisted one reaches the
mismatch branch, which evaluates the undefined identifier `APiError`; the
`catch` block does the same, so the request dies with an uncaught
`ReferenceError` (a 500 through the Express default handler), not an
`ApiError(401)`. -/
theorem refresh_mismatch_uncaught_referenceError :
    refershAccessToken envA ⟨[aliceSession]⟩ (some rt9) none =
      .error (.referenceError "APiError is not defined") ∧
    refershAccessToken envA ⟨[aliceSession]⟩ (some rt9) none ≠
      .error (.api 401 "Refresh token is expired or invalid") := by
  decide

/-- C4: the claim fails on the code. On a valid, matching refresh request the
handler responds 200, but the `refreshToken` component it returns is
`undefined` (the destructuring reads `newRefreshToken`, a key the result
object does not have), the `accessToken` component is `undefined` (missing
`return` in the generator), and the stored refresh-token field is unset
rather than holding a fresh token. -/
theorem refresh_success_components_absent :
    refershAccessToken envA ⟨[aliceSession]⟩ none (some rt5) =
      .ok (⟨[alice]⟩, ⟨200, none, none⟩) := by
  decide

/-- C6: the claim fails on the code. With the documented body
`{oldPassword, newPassword}` and a correct old password, the handler reads
the misspelled key `newPassowrd`, obtains `undefined`, assigns it to
`user.password`, and the save rejects when the pre-save hook hashes
`undefined` — a plain error (500), with no new password persisted. The
wrong-old-password branch does fail with 400 as claimed. -/
theorem changePassword_misspelled_key :
    changeCurrentPassword ⟨[alice]⟩ 1
        [("oldPassword", "p1"), ("newPassword", "n1")] =
      .error (.typeError "data and salt arguments required") ∧
    changeCurrentPassword ⟨[alice]⟩ 1
        [("oldPassword", "bad"), ("newPassword", "n1")] =
      .error (.api 400 "invalid password") := by
  decide

/-- C7 counterexample: the claim, as stated, fails on the code. A
registration request whose `fullName` field is entirely absent is not caught
by the blank-field check (`undefined?.trim() === ""` is false), so no 400
`ApiError` is raised; the request proceeds and only fails at `User.create`
with a mongoose validation error (a 500 through the default handler). -/
theorem register_missing_field_not_rejected :
    registerUser cenvUp ⟨[]⟩ reqNoFullName 1 =
      .error (.mongooseValidation "User validation failed") ∧
    registerUser cenvUp ⟨[]⟩ reqNoFullName 1 ≠
      .error (.api 400 "All fields are required") := by
  decide

/-- C9: the claim fails on the code. When the multer `files` object is
present but carries no `avatar` key (here: only a `coverImage` part), the
extraction `req.files?.avatar[0]?.path` indexes `undefined[0]` and throws a
`TypeError` — an uncontrolled exception surfaced as a 500 — instead of the
claimed 400 `ApiError`. -/
theorem register_absent_avatar_typeError :
    registerUser cenvUp ⟨[]⟩ reqNoAvatar 1 =
      .error (.typeError "Cannot read properties of undefined (reading 0)") ∧
    registerUser cenvUp ⟨[]⟩ reqNoAvatar 1 ≠
      .error (.api 400 "avatar file is required") := by
  decide

/-! Helper lemmas shared by the remaining theorems. -/

/-- The model bcrypt hash never returns its input: the algorithm/cost prefix
makes the output strictly longer than the plaintext. -/
theorem bcryptHash_ne (p : String) : bcryptHash p ≠ p := by
  intro h
  have hlen : (bcryptHash p).length = p.length := congrArg String.length h
  have h7 : ("$2b$10$" : String).length = 7 := rfl
  simp only [bcryptHash, String.length_append, h7] at hlen
  omega

/-- The record a successful registration appends to the store, given the
submitted fields, the avatar url returned by cloudinary and the resulting
cover-image url. -/
def regRecord (nextId : Nat) (fn em un pw aurl coverUrl : String) : UserRecord :=
  ⟨nextId, jsTrim (jsToLower un), jsToLower em, jsTrim fn, aurl, coverUrl,
   bcryptHash pw, none⟩

/-- Running `registerUser` on a well-formed request with an avatar file part,
no cover-image part, no duplicate user and a fresh id: it appends exactly
`regRecord` (hashed password, empty cover image) and answers 201 with the
sanitized record. -/
theorem registerUser_run (cenv : CloudEnv) (db : DB)
    (fn em un pw ap aurl : String) (nextId : Nat)
    (hfn : jsTrim fn ≠ "") (hem : jsTrim em ≠ "") (hun : jsTrim un ≠ "")
    (hpw : jsTrim pw ≠ "")
    (hdup : findOneByUsernameOrEmail db (some un) (some em) = none)
    (hap : ap ≠ "")
    (hup : cenv.uploadResult ap = some ⟨aurl⟩) (haurl : aurl ≠ "")
    (hfresh : db.users.find? (fun u => u._id == nextId) = none) :
    registerUser cenv db
        ⟨⟨some fn, some em, some un, some pw⟩, some ⟨some [⟨ap⟩], none⟩⟩ nextId =
      .ok (⟨db.users ++ [regRecord nextId fn em un pw aurl ""]⟩, 201,
           sanitize (regRecord nextId fn em un pw aurl "")) := by
  have hblank : someFieldBlank ⟨some fn, some em, some un, some pw⟩ = false := by
    simp [someFieldBlank, hfn, hem, hun, hpw]
  have hfind : findById ⟨db.users ++ [regRecord nextId fn em un pw aurl ""]⟩ nextId =
      some (regRecord nextId fn em un pw aurl "") := by
    simp only [findById, List.find?_append, hfresh, Option.none_or]
    simp [regRecord]
  simp only [registerUser, hblank, Bool.false_eq_true, if_false, hdup,
    avatarLocalPathOf, coverImageLocalPathOf, List.head?, Option.map_some,
    jsFalsyStr, uploadOnCloudinary, hup, hap, beq_iff_eq, if_neg, haurl,
    Option.map_none, jsOrStr, preSaveHook]
  simp only [regRecord] at hfind
  simp [hap, haurl, hup, hfind, regRecord, preSaveHook, jsOrStr, sanitize]


/-- C5: the persisted password field is populated only via the bcrypt hash
applied in the pre-save hook — the hash never equals its plaintext input; a
save whose password path is unmodified leaves the record untouched (no
re-hash); a save with a modified password stores exactly the bcrypt hash of
the new value; and a successful registration persists the bcrypt hash of the
submitted password, never the plaintext. -/
theorem password_only_bcrypt_hashed :
    (∀ p : String, bcryptHash p ≠ p) ∧
    (∀ doc : UserRecord, preSaveHook false doc = doc) ∧
    (∀ doc : UserRecord,
      (preSaveHook true doc).password = bcryptHash doc.password) ∧
    (∀ (cenv : CloudEnv) (db : DB) (fn em un pw ap aurl : String) (nextId : Nat),
      jsTrim fn ≠ "" → jsTrim em ≠ "" → jsTrim un ≠ "" → jsTrim pw ≠ "" →
      findOneByUsernameOrEmail db (some un) (some em) = none →
      ap ≠ "" → cenv.uploadResult ap = some ⟨aurl⟩ → aurl ≠ "" →
      db.users.find? (fun u => u._id == nextId) = none →
      ∃ db2 : DB,
        registerUser cenv db ⟨⟨some fn, some em, some un, some pw⟩,
            some ⟨some [⟨ap⟩], none⟩⟩ nextId =
          .ok (db2, 201, sanitize (regRecord nextId fn em un pw aurl "")) ∧
        regRecord nextId fn em un pw aurl "" ∈ db2.users ∧
        (regRecord nextId fn em un pw aurl "").password = bcryptHash pw ∧
        (regRecord nextId fn em un pw aurl "").password ≠ pw) := by
  refine ⟨bcryptHash_ne, fun doc => by simp [preSaveHook],
    fun doc => by simp [preSaveHook], ?_⟩
  intro cenv db fn em un pw ap aurl nextId hfn hem hun hpw hdup hap hup haurl hfresh
  refine ⟨⟨db.users ++ [regRecord nextId fn em un pw aurl ""]⟩,
    registerUser_run cenv db fn em un pw ap aurl nextId
      hfn hem hun hpw hdup hap hup haurl hfresh,
    ?_, rfl, bcryptHash_ne pw⟩
  simp

/-- Witness for `password_only_bcrypt_hashed` at concrete inputs. -/
theorem password_only_bcrypt_hashed_witness :
    bcryptHash "p1" ≠ "p1" ∧
    preSaveHook false alice = alice ∧
    (preSaveHook true alice).password = bcryptHash alice.password ∧
    (∃ db2 : DB,
      registerUser cenvUp ⟨[]⟩
          ⟨⟨some "Bob B", some "bob@x.com", some "bob", some "pw1"⟩,
           some ⟨some [⟨"tmp/a.png"⟩], none⟩⟩ 1 =
        .ok (db2, 201, sanitize (regRecord 1 "Bob B" "bob@x.com" "bob" "pw1" "http://cdn/x.png" "")) ∧
      regRecord 1 "Bob B" "bob@x.com" "bob" "pw1" "http://cdn/x.png" "" ∈ db2.users ∧
      (regRecord 1 "Bob B" "bob@x.com" "bob" "pw1" "http://cdn/x.png" "").password = bcryptHash "pw1" ∧
      (regRecord 1 "Bob B" "bob@x.com" "bob" "pw1" "http://cdn/x.png" "").password ≠ "pw1") :=
  ⟨password_only_bcrypt_hashed.1 "p1",
   password_only_bcrypt_hashed.2.1 alice,
   password_only_bcrypt_hashed.2.2.1 alice,
   password_only_bcrypt_hashed.2.2.2 cenvUp ⟨[]⟩ "Bob B" "bob@x.com" "bob" "pw1"
     "tmp/a.png" "http://cdn/x.png" 1 (by decide) (by decide) (by decide) (by decide)
     rfl (by decide) rfl (by decide) rfl⟩

/-- A cloudinary environment in which every upload fails. -/
def cenvDown : CloudEnv := ⟨fun _ => none⟩

/-- C10: `uploadOnCloudinary` returns null (never throws) when given no path
and when the upload fails, and an otherwise-valid registration that omits the
optional cover-image file part succeeds with the created record (and its
sanitized projection) carrying the empty string as `coverImage`. -/
theorem register_coverImage_defaults_empty :
    (∀ cenv : CloudEnv, uploadOnCloudinary cenv none = none) ∧
    (∀ (cenv : CloudEnv) (p : String), cenv.uploadResult p = none →
      uploadOnCloudinary cenv (some p) = none) ∧
    (∀ (cenv : CloudEnv) (db : DB) (fn em un pw ap aurl : String) (nextId : Nat),
      jsTrim fn ≠ "" → jsTrim em ≠ "" → jsTrim un ≠ "" → jsTrim pw ≠ "" →
      findOneByUsernameOrEmail db (some un) (some em) = none →
      ap ≠ "" → cenv.uploadResult ap = some ⟨aurl⟩ → aurl ≠ "" →
      db.users.find? (fun u => u._id == nextId) = none →
      registerUser cenv db ⟨⟨some fn, some em, some un, some pw⟩,
          some ⟨some [⟨ap⟩], none⟩⟩ nextId =
        .ok (⟨db.users ++ [regRecord nextId fn em un pw aurl ""]⟩, 201,
             sanitize (regRecord nextId fn em un pw aurl "")) ∧
      (regRecord nextId fn em un pw aurl "").coverImage = "" ∧
      (sanitize (regRecord nextId fn em un pw aurl "")).coverImage = "") := by
  refine ⟨fun cenv => rfl, ?_, ?_⟩
  · intro cenv p h
    simp [uploadOnCloudinary, h]
  · intro cenv db fn em un pw ap aurl nextId hfn hem hun hpw hdup hap hup haurl hfresh
    exact ⟨registerUser_run cenv db fn em un pw ap aurl nextId
      hfn hem hun hpw hdup hap hup haurl hfresh, rfl, rfl⟩

/-- Witness for `register_coverImage_defaults_empty` at concrete inputs. -/
theorem register_coverImage_defaults_empty_witness :
    uploadOnCloudinary cenvDown none = none ∧
    uploadOnCloudinary cenvDown (some "tmp/x.png") = none ∧
    (registerUser cenvUp ⟨[]⟩
        ⟨⟨some "Cara C", some "cara@x.com", some "cara", some "pw2"⟩,
         some ⟨some [⟨"tmp/b.png"⟩], none⟩⟩ 1 =
      .ok (⟨[regRecord 1 "Cara C" "cara@x.com" "cara" "pw2" "http://cdn/x.png" ""]⟩, 201,
           sanitize (regRecord 1 "Cara C" "cara@x.com" "cara" "pw2" "http://cdn/x.png" "")) ∧
     (regRecord 1 "Cara C" "cara@x.com" "cara" "pw2" "http://cdn/x.png" "").coverImage = "" ∧
     (sanitize (regRecord 1 "Cara C" "cara@x.com" "cara" "pw2" "http://cdn/x.png" "")).coverImage = "") :=
  ⟨register_coverImage_defaults_empty.1 cenvDown,
   register_coverImage_defaults_empty.2.1 cenvDown "tmp/x.png" rfl,
   register_coverImage_defaults_empty.2.2 cenvUp ⟨[]⟩ "Cara C" "cara@x.com" "cara" "pw2"
     "tmp/b.png" "http://cdn/x.png" 1 (by decide) (by decide) (by decide) (by decide)
     rfl (by decide) rfl (by decide) rfl⟩

/-- C7 (amended): the blank-field check fires exactly when one of the four
body fields is present and blank after trimming, and then `registerUser`
rejects with the 400 `ApiError`; when the check passes and a user with the
same username or email already exists, `registerUser` rejects with the 409
`ApiError`; and a stored user matching the submitted username or email always
makes the duplicate lookup return a record. Both rejections are raised before
any record is created. -/
theorem registerUser_validation (cenv : CloudEnv) (db : DB) (req : RegisterReq)
    (nextId : Nat) :
    (someFieldBlank req.body = true ↔
      ∃ s : String, jsTrim s = "" ∧
        (req.body.fullName = some s ∨ req.body.email = some s ∨
         req.body.username = some s ∨ req.body.password = some s)) ∧
    (someFieldBlank req.body = true →
      registerUser cenv db req nextId = .error (.api 400 "All fields are required")) ∧
    (someFieldBlank req.body = false →
      ∀ u : UserRecord,
        findOneByUsernameOrEmail db req.body.username req.body.email = some u →
        registerUser cenv db req nextId =
          .error (.api 409 "User with email or username already exist")) ∧
    (∀ u : UserRecord, u ∈ db.users →
      (req.body.username = some u.username ∨ req.body.email = some u.email) →
      ∃ v : UserRecord,
        findOneByUsernameOrEmail db req.body.username req.body.email = some v) := by
  refine ⟨?_, ?_, ?_, ?_⟩
  · simp only [someFieldBlank, List.any_eq_true]
    constructor
    · rintro ⟨f, hf, hpred⟩
      cases f with
      | none => simp at hpred
      | some s =>
        refine ⟨s, by simpa using hpred, ?_⟩
        simp only [List.mem_cons, List.not_mem_nil, or_false] at hf
        rcases hf with h | h | h | h
        · exact Or.inl h.symm
        · exact Or.inr (Or.inl h.symm)
        · exact Or.inr (Or.inr (Or.inl h.symm))
        · exact Or.inr (Or.inr (Or.inr h.symm))
    · rintro ⟨s, hs, hcase⟩
      refine ⟨some s, ?_, by simpa using hs⟩
      simp only [List.mem_cons, List.not_mem_nil, or_false]
      rcases hcase with h | h | h | h
      · exact Or.inl h.symm
      · exact Or.inr (Or.inl h.symm)
      · exact Or.inr (Or.inr (Or.inl h.symm))
      · exact Or.inr (Or.inr (Or.inr h.symm))
  · intro h
    simp [registerUser, h]
  · intro h u hu
    simp [registerUser, h, hu]
  · intro u hu hmatch
    unfold findOneByUsernameOrEmail
    have hp : (orClause req.body.username (fun v => v.username) u
        || orClause req.body.email (fun v => v.email) u) = true := by
      rcases hmatch with h | h <;> simp [orClause, h]
    have hsome : (db.users.find? (fun x =>
        orClause req.body.username (fun v => v.username) x
        || orClause req.body.email (fun v => v.email) x)).isSome = true :=
      List.find?_isSome.mpr ⟨u, hu, hp⟩
    exact Option.isSome_iff_exists.mp hsome

/-- Witness for `registerUser_validation` at concrete inputs: a blank (but
present) `fullName` is rejected 400; a duplicate username is rejected 409. -/
theorem registerUser_validation_witness :
    registerUser cenvUp ⟨[alice]⟩
        ⟨⟨some " ", some "dan@x.com", some "dan", some "pw"⟩,
         some ⟨some [⟨"tmp/d.png"⟩], none⟩⟩ 2 =
      .error (.api 400 "All fields are required") ∧
    registerUser cenvUp ⟨[alice]⟩
        ⟨⟨some "Eve E", some "eve@x.com", some "alice", some "pw"⟩,
         some ⟨some [⟨"tmp/e.png"⟩], none⟩⟩ 2 =
      .error (.api 409 "User with email or username already exist") :=
  ⟨(registerUser_validation cenvUp ⟨[alice]⟩
      ⟨⟨some " ", some "dan@x.com", some "dan", some "pw"⟩,
       some ⟨some [⟨"tmp/d.png"⟩], none⟩⟩ 2).2.1 (by decide),
   (registerUser_validation cenvUp ⟨[alice]⟩
      ⟨⟨some "Eve E", some "eve@x.com", some "alice", some "pw"⟩,
       some ⟨some [⟨"tmp/e.png"⟩], none⟩⟩ 2).2.2.1 (by decide) alice (by decide)⟩

/-- C8: `verifyJWT` extracts the bearer credential preferring the
`accessToken` cookie and falling back to the `Authorization` header; it fails
401 when neither is present; it fails 401 when verification against the
access secret fails; it fails 401 when the resolved user no longer exists;
and on success it attaches the resolved user with the password and
refresh-token fields projected out. -/
theorem verifyJWT_contract (env : Env) (db : DB) :
    (verifyJWT env db ⟨none, none⟩ = .error (.api 401 "Unathorized request")) ∧
    (∀ (t : Tok) (hdr : Option Tok), jsFalsyTok (some t) = false →
      verifyJWT env db ⟨some t, hdr⟩ = verifyJWT env db ⟨some t, none⟩) ∧
    (∀ hdr : Option Tok,
      verifyJWT env db ⟨none, hdr⟩ = verifyJWT env db ⟨hdr, none⟩) ∧
    (∀ (t : Tok) (msg : String), jwtVerify t env.accessTokenSecret = .error msg →
      ∃ m : String, verifyJWT env db ⟨some t, none⟩ = .error (.api 401 m)) ∧
    (∀ (t : Tok) (p : JwtPayload), jwtVerify t env.accessTokenSecret = .ok p →
      findById db p.subjectId = none →
      verifyJWT env db ⟨some t, none⟩ = .error (.api 401 "Invalid Access Token")) ∧
    (∀ (t : Tok) (p : JwtPayload) (u : UserRecord),
      jwtVerify t env.accessTokenSecret = .ok p →
      findById db p.subjectId = some u →
      verifyJWT env db ⟨some t, none⟩ = .ok (sanitize u)) := by
  refine ⟨rfl, ?_, ?_, ?_, ?_, ?_⟩
  · intro t hdr h
    simp [verifyJWT, jsOrTok, h]
  · intro hdr
    cases hdr with
    | none => rfl
    | some t =>
      cases t with
      | signed p s => rfl
      | raw s =>
        by_cases hs : s = "" <;>
          simp [verifyJWT, jsOrTok, jsFalsyTok, hs, verifyJWTtry]
  · intro t msg h
    by_cases hf : jsFalsyTok (some t) = true
    · exact ⟨"Unathorized request", by
        simp only [verifyJWT, jsOrTok, hf, verifyJWTtry, if_true]
        rfl⟩
    · have hf2 : jsFalsyTok (some t) = false := by simpa using hf
      exact ⟨errMessage (.api 401 msg),
        by simp [verifyJWT, jsOrTok, hf2, verifyJWTtry, h]⟩
  · intro t p hok hmiss
    cases t with
    | raw s => simp [jwtVerify] at hok
    | signed q s =>
      have hcond : s = env.accessTokenSecret := by
        by_contra hc
        simp [jwtVerify, hc] at hok
      have hq : q = p := by
        rw [jwtVerify, if_pos hcond] at hok
        exact Except.ok.inj hok
      subst hcond
      subst hq
      simp [verifyJWT, jsOrTok, jsFalsyTok, verifyJWTtry, jwtVerify, hmiss, errMessage]
  · intro t p u hok hfound
    cases t with
    | raw s => simp [jwtVerify] at hok
    | signed q s =>
      have hcond : s = env.accessTokenSecret := by
        by_contra hc
        simp [jwtVerify, hc] at hok
      have hq : q = p := by
        rw [jwtVerify, if_pos hcond] at hok
        exact Except.ok.inj hok
      subst hcond
      subst hq
      simp [verifyJWT, jsOrTok, jsFalsyTok, verifyJWTtry, jwtVerify, hfound]

/-- A valid access token for `alice` (subject 1) under `envA`. -/
def atok : Tok := jwtSign (.access 1 "alice@x.com" "alice" "Alice A" 50) "access-secret"

/-- A valid access token for subject 2, who does not exist in `⟨[alice]⟩`. -/
def atok2 : Tok := jwtSign (.access 2 "ghost@x.com" "ghost" "Ghost G" 50) "access-secret"

/-- Witness for `verifyJWT_contract` at concrete inputs. -/
theorem verifyJWT_contract_witness :
    verifyJWT envA ⟨[alice]⟩ ⟨none, none⟩ = .error (.api 401 "Unathorized request") ∧
    verifyJWT envA ⟨[alice]⟩ ⟨some atok, some (.raw "zzz")⟩ =
      verifyJWT envA ⟨[alice]⟩ ⟨some atok, none⟩ ∧
    verifyJWT envA ⟨[alice]⟩ ⟨none, some atok⟩ =
      verifyJWT envA ⟨[alice]⟩ ⟨some atok, none⟩ ∧
    (∃ m : String, verifyJWT envA ⟨[alice]⟩ ⟨some (.raw "bad"), none⟩ =
      .error (.api 401 m)) ∧
    verifyJWT envA ⟨[alice]⟩ ⟨some atok2, none⟩ =
      .error (.api 401 "Invalid Access Token") ∧
    verifyJWT envA ⟨[alice]⟩ ⟨some atok, none⟩ = .ok (sanitize alice) :=
  ⟨(verifyJWT_contract envA ⟨[alice]⟩).1,
   (verifyJWT_contract envA ⟨[alice]⟩).2.1 atok (some (.raw "zzz")) (by decide),
   (verifyJWT_contract envA ⟨[alice]⟩).2.2.1 (some atok),
   (verifyJWT_contract envA ⟨[alice]⟩).2.2.2.1 (.raw "bad") "jwt malformed" (by decide),
   (verifyJWT_contract envA ⟨[alice]⟩).2.2.2.2.1 atok2
     (.access 2 "ghost@x.com" "ghost" "Ghost G" 50) (by decide) (by decide),
   (verifyJWT_contract envA ⟨[alice]⟩).2.2.2.2.2 atok
     (.access 1 "alice@x.com" "alice" "Alice A" 50) alice (by decide) (by decide)⟩

end Backend
